import Mathlib

/-!
Verification of `concat.js` (planet-cleanium): a report-generation pipeline
that scans a project tree, collects diagnostics (runtime, build, ESLint,
TypeScript) and assembles a markdown report.

JavaScript string primitives (`includes`, `startsWith`, `endsWith`, `trim`,
`split`, `substring`) are modelled at the character-list level so that every
definition evaluates in the kernel.  File-system and subprocess inputs
(`.gitignore` content, `package.json`, file contents, parsed ESLint JSON) are
passed as explicit parameters.
-/

/-- Model of JS `String.prototype.startsWith`. -/
def jsStartsWith (s pre : String) : Bool :=
  pre.data.isPrefixOf s.data

/-- Model of JS `String.prototype.endsWith`. -/
def jsEndsWith (s suffix : String) : Bool :=
  suffix.data.isSuffixOf s.data

/-- Does `needle` occur as a contiguous sublist of the second argument? -/
def hasSubList (needle : List Char) : List Char → Bool
  | [] => needle.isEmpty
  | c :: rest => needle.isPrefixOf (c :: rest) || hasSubList needle rest

/-- Model of JS `String.prototype.includes`. -/
def jsIncludes (s sub : String) : Bool :=
  hasSubList sub.data s.data

/-- Model of JS `String.prototype.substring(n)` (drop the first `n` chars). -/
def jsSubstringFrom (s : String) (n : Nat) : String :=
  ⟨s.data.drop n⟩

/-- Model of JS `String.prototype.trim`: drop whitespace from both ends. -/
def jsTrim (s : String) : String :=
  ⟨((s.data.dropWhile Char.isWhitespace).reverse.dropWhile Char.isWhitespace).reverse⟩

/-- Split a character list at every occurrence of `c` (JS `split` on a
one-character separator; splitting the empty list yields `[[]]`, matching
JS `"".split(sep) = [""]`). -/
def splitCharList (c : Char) (l : List Char) : List (List Char) :=
  l.foldr
    (fun ch acc =>
      if ch = c then [] :: acc
      else
        match acc with
        | [] => [[ch]]
        | h :: t => (ch :: h) :: t)
    [[]]

/-- Model of JS `String.prototype.split` with a one-character separator. -/
def jsSplit (s : String) (c : Char) : List String :=
  (splitCharList c s.data).map (fun l => ⟨l⟩)

/-- Model of Node `path.basename`: the final `/`-separated segment of a path
(the paths produced by the scanner never end in a separator). -/
def basename (p : String) : String :=
  (jsSplit p '/').getLastD ""

/-- Embedding of `readGitignore` (src/concat.js:16-21): the `.gitignore`
content is an explicit `Option` parameter standing for the file-system read
(`none` = file absent).  JS `filter(Boolean)` drops empty lines. -/
def readGitignore (gitignoreContent : Option String) : List String :=
  match gitignoreContent with
  | none => []
  | some content => (jsSplit content '\n').filter (fun l => !l.isEmpty)

/-- Embedding of the `excludeFiles` array (src/concat.js:24-76): the spread
`.gitignore` patterns followed by the built-in literal patterns. -/
def excludeFilesList (gitignorePatterns : List String) : List String :=
  gitignorePatterns ++
    ["concat.js", "package-lock.json", "/node_modules", "/dist", "/build",
     "/git", "/firebase", "/vscode", "/coverage",
     "*.jpg", "*.jpeg", "*.png", "*.gif", "*.bmp", "*.svg", "*.ico",
     "*.tif", "*.tiff", "*.psd", "*.ai", "*.eps", "*.indd", "*.pdf",
     "*.doc", "*.docx", "*.xls", "*.xlsx", "*.ppt", "*.pptx",
     "*.odt", "*.ods", "*.odp",
     "*.mp3", "*.wav", "*.aac", "*.m4a",
     "*.mp4", "*.avi", "*.mov", "*.wmv", "*.flv",
     "*.zip", "*.rar", "*.7z", "*.tar", "*.gz", "*.bz2",
     "*.log", "*.d.ts", "*.md"]

/-- Embedding of the rule-match callback inside `excludeFiles.some(...)`
(src/concat.js:81-90): a `*.`-rule tests `endsWith` of the base name against
`pattern.substring(1)`; a `/`-rule tests substring containment of
`pattern.substring(1)` in the full path; any other rule is an exact
base-name comparison. -/
def ruleMatches (filePath pattern : String) : Bool :=
  if jsStartsWith pattern "*." then
    jsEndsWith (basename filePath) (jsSubstringFrom pattern 1)
  else if jsStartsWith pattern "/" then
    jsIncludes filePath (jsSubstringFrom pattern 1)
  else
    basename filePath == pattern

/-- Embedding of `shouldIncludeFile` (src/concat.js:79-91), with the
`excludeFiles` list it closes over made an explicit parameter. -/
def shouldIncludeFile (excludeFiles : List String) (filePath : String) : Bool :=
  !(excludeFiles.any (fun pattern => ruleMatches filePath pattern))

/-- One ESLint message object `{line, ruleId, message}` as produced by
`JSON.parse` of the linter's JSON output. -/
structure ESLintMessage where
  line : Nat
  ruleId : String
  message : String

/-- One ESLint file entry `{filePath, messages}`. -/
structure ESLintFile where
  filePath : String
  messages : List ESLintMessage

/-- Embedding of `parseESLintOutput` (src/concat.js:144-160).  `JSON.parse`
is an external primitive: its result is passed as `Option (List ESLintFile)`,
with `none` standing for a parse exception, which the `catch` turns into the
empty accumulator (logged, not fatal).  `rel` models
`path.relative(__dirname, ·)`. -/
def parseESLintOutput (rel : String → String) (parsed : Option (List ESLintFile)) :
    List String :=
  match parsed with
  | none => []
  | some parsedOutput =>
    parsedOutput.flatMap (fun file =>
      file.messages.map (fun m =>
        "[" ++ rel file.filePath ++ "] Line " ++ toString m.line ++ ": " ++
          m.message ++ " (" ++ m.ruleId ++ ")"))

/-- Embedding of `summarizeTypescriptErrors` (src/concat.js:163-167). -/
def summarizeTypescriptErrors (output : String) : List String :=
  let lines := jsSplit (jsTrim output) '\n'
  lines.filter (fun line => jsIncludes line "error TS")

/-- Embedding of `getProjectName` (src/concat.js:170-177): the file-system
state is the parameter (`some name` = `package.json` exists and its `name`
field parses to `name`; `none` = the file is absent). -/
def getProjectName (fsPackageJsonName : Option String) : String :=
  match fsPackageJsonName with
  | some name => name
  | none => "Unknown Project"

/-- Embedding of the capped diagnostic-section ternary in `generateOutput`
(src/concat.js:207,211,215): first 5 entries joined, or the sentinel. -/
def renderDiag (errors : List String) (sentinel : String) : String :=
  if errors.length > 0 then String.intercalate "\n" (errors.take 5) else sentinel

/-- Embedding of the uncapped TypeScript-section ternary in `generateOutput`
(src/concat.js:219): the full list joined, or the sentinel. -/
def renderDiagFull (errors : List String) (sentinel : String) : String :=
  if errors.length > 0 then String.intercalate "\n" errors else sentinel

/-- Embedding of `generateOutput` (src/concat.js:180-223).  The function
calls `getProjectName()` which reads `package.json`, so that file-system
state is an explicit first parameter.  `[...new Set(codeFiles)]` keeps the
first occurrence of each element in order, i.e. `List.eraseDups`. -/
def generateOutput (fsPackageJsonName : Option String)
    (codeFiles runtimeErrors buildErrors eslintErrors typescriptErrors : List String)
    (summary : String) : String :=
  let uniqueCodeFiles := codeFiles.eraseDups
  "# Overview\nThis file provides a summary of the codebase, including code files. Please provide the updated and\nfixed code for each distinct file that requires changes to fix intentionally introduced errors\n(runtime, build, ESLint, and TypeScript), along with concise corrections. Do not include files\nthat do not require any changes.\n\n## Summary\n"
    ++ summary
    ++ "\n\n# Project: "
    ++ getProjectName fsPackageJsonName
    ++ "\n\n## Code Files\n\n"
    ++ String.intercalate "\n" uniqueCodeFiles
    ++ "\n\n## Runtime Errors\n\n"
    ++ renderDiag runtimeErrors "No runtime errors found."
    ++ "\n\n## Build Errors\n\n"
    ++ renderDiag buildErrors "No build errors found."
    ++ "\n\n## ESLint Errors\n\n"
    ++ renderDiag eslintErrors "No ESLint errors found."
    ++ "\n\n## TypeScript Errors\n\n"
    ++ renderDiagFull typescriptErrors "No TypeScript errors found."
    ++ "\n"

/-- Embedding of `getFileContentWithStructure` (src/concat.js:226-237): the
relative path (`path.relative(__dirname, filePath)`) and the file content
(`fs.readFileSync`) are the inputs. -/
def getFileContentWithStructure (relativeFilePath content : String) : String :=
  if relativeFilePath == "output.md" then ""
  else
    let trimmed := jsTrim content
    if trimmed.length == 0 then ""
    else "[" ++ relativeFilePath ++ "]\n" ++ trimmed ++ "\n...\n"

/-- Embedding of `const codeFiles = filePaths.map(getFileContentWithStructure)`
(src/concat.js:338): each file is a (relative path, content) pair. -/
def codeFilesOf (files : List (String × String)) : List String :=
  files.map (fun f => getFileContentWithStructure f.1 f.2)

/-- Embedding of the per-error mapper in `summaryRuntimeErrors`
(src/concat.js:266-271).  `lines.slice(1).find(...)` yields `undefined` when
no line matches; the template literal renders that as the text
`"undefined"`, which the `match` models. -/
def summarizeRuntimeError (error : String) : String :=
  let lines := jsSplit error '\n'
  let firstLine := jsTrim (lines.headD "")
  let fileInfo := (lines.drop 1).find? (fun line => jsIncludes line "at ")
  "- " ++ firstLine ++ "\n  " ++
    (match fileInfo with
     | some s => s
     | none => "undefined")

/-- Embedding of `runtimeErrors.map(...)` (src/concat.js:266). -/
def summaryRuntimeErrors (runtimeErrors : List String) : List String :=
  runtimeErrors.map summarizeRuntimeError

/-- Embedding of the summary template literal (src/concat.js:340-345). -/
def mkSummary (filePathsLength : Nat)
    (codeFiles smryRuntimeErrors buildErrors eslintErrors typescriptErrors : List String) :
    String :=
  "- Total files: " ++ toString filePathsLength ++
    "\n- Lines of code: " ++ toString (jsSplit (String.join codeFiles) '\n').length ++
    "\n- Runtime errors: " ++ toString smryRuntimeErrors.length ++
    "\n- Build errors: " ++ toString buildErrors.length ++
    "\n- ESLint errors: " ++ toString eslintErrors.length ++
    "\n- TypeScript errors: " ++ toString typescriptErrors.length

/-- The pure tail of the orchestrator (src/concat.js:334-355): from the
collected inputs, compute the summarized runtime errors, the parsed ESLint
list, the TypeScript list, the rendered code files and the summary, and
assemble the report. -/
def runReport (fsPackageJsonName : Option String) (files : List (String × String))
    (runtimeErrors buildErrors : List String)
    (eslintParsed : Option (List ESLintFile)) (rel : String → String)
    (tsOutput : String) : String :=
  let smryRuntimeErrors := summaryRuntimeErrors runtimeErrors
  let eslintErrors := parseESLintOutput rel eslintParsed
  let typescriptErrors := summarizeTypescriptErrors tsOutput
  let codeFiles := codeFilesOf files
  let summary := mkSummary files.length codeFiles smryRuntimeErrors buildErrors
    eslintErrors typescriptErrors
  generateOutput fsPackageJsonName codeFiles smryRuntimeErrors buildErrors
    eslintErrors typescriptErrors summary

/-- Outcome of one awaited step of the orchestrator's async IIFE. -/
inductive StepResult where
  | ok
  | threw
deriving DecidableEq

/-- Observable events of the orchestrator (src/concat.js:239-368). -/
inductive MainEv where
  | launched
  | navigated
  | capturedRuntime
  | capturedBuild
  | ranESLint
  | ranTypescript
  | clearedOutput
  | enumerated
  | wroteOutput
  | copiedToClipboard
  | closedBrowser
deriving DecidableEq

/-- Control-flow model of the async IIFE (src/concat.js:239-368).  The body
has no try/finally: an exception from any unguarded awaited step
(`page.goto`, `page.waitForSelector`, the runtime-error `page.evaluate`, the
two `fs.writeFileSync` calls, the tree walk, the clipboard write) rejects
the whole IIFE and skips every later statement, `browser.close()` included.
The build-overlay, ESLint and TypeScript steps sit in their own try/catch
and always fall through to the next statement, so they appear
unconditionally between `capturedRuntime` and `clearedOutput`. -/
def mainEvents (goto wait evalRt writeClear enumerate writeOut clip : StepResult) :
    List MainEv :=
  MainEv.launched ::
    (match goto with
     | .threw => []
     | .ok =>
       MainEv.navigated ::
         (match wait with
          | .threw => []
          | .ok =>
            match evalRt with
            | .threw => []
            | .ok =>
              MainEv.capturedRuntime :: MainEv.capturedBuild :: MainEv.ranESLint ::
                MainEv.ranTypescript ::
                  (match writeClear with
                   | .threw => []
                   | .ok =>
                     MainEv.clearedOutput ::
                       (match enumerate with
                        | .threw => []
                        | .ok =>
                          MainEv.enumerated ::
                            (match writeOut with
                             | .threw => []
                             | .ok =>
                               MainEv.wroteOutput ::
                                 (match clip with
                                  | .threw => []
                                  | .ok =>
                                    [MainEv.copiedToClipboard,
                                     MainEv.closedBrowser]))))))

/-- Helper: a string of length zero is the empty string. -/
theorem string_eq_empty_of_length_eq_zero {s : String} (h : s.length = 0) : s = "" := by
  cases s with
  | mk data =>
    cases data with
    | nil => rfl
    | cons c cs => simp [String.length] at h

/-- Helper: the positive branch of the capped diagnostic section. -/
theorem renderDiag_of_pos (errors : List String) (s : String) (h : errors.length > 0) :
    renderDiag errors s = String.intercalate "\n" (errors.take 5) := by
  simp [renderDiag, h]

/-- Helper: the positive branch of the uncapped diagnostic section. -/
theorem renderDiagFull_of_pos (errors : List String) (s : String) (h : errors.length > 0) :
    renderDiagFull errors s = String.intercalate "\n" errors := by
  simp [renderDiagFull, h]

/-- C1: for every path `P` and rule list `R`, `shouldIncludeFile` returns
`false` iff some rule in `R` matches `P` under its classified kind
(extension rule over the base name, path-fragment substring rule, or exact
base-name rule), as computed by `ruleMatches`. -/
theorem shouldIncludeFile_false_iff (P : String) (R : List String) :
    shouldIncludeFile R P = false ↔ ∃ r ∈ R, ruleMatches P r = true := by
  simp [shouldIncludeFile, List.any_eq_true]

/-- C9: appending a rule that does not match `P` never changes the value of
`shouldIncludeFile` at `P`. -/
theorem shouldIncludeFile_append_nonmatching (P : String) (R : List String) (r : String)
    (h : ruleMatches P r = false) :
    shouldIncludeFile (R ++ [r]) P = shouldIncludeFile R P := by
  simp [shouldIncludeFile, List.any_append, h]

/-- Witness for C9 at a concrete path and rule. -/
theorem shouldIncludeFile_append_nonmatching_w :
    ruleMatches "src/app.ts" "foo.js" = false ∧
    shouldIncludeFile (["*.md"] ++ ["foo.js"]) "src/app.ts" =
      shouldIncludeFile ["*.md"] "src/app.ts" :=
  ⟨by decide, shouldIncludeFile_append_nonmatching "src/app.ts" ["*.md"] "foo.js" (by decide)⟩

/-- C7: the path-fragment rule `/build` strips only its leading slash and is
tested by plain substring containment, so it matches `rebuild/x.js` even
though no path segment of `rebuild/x.js` equals `build`; consequently the
built-in exclude list (which contains `/build`) excludes that file. -/
theorem ruleMatches_fragment_substring :
    ruleMatches "rebuild/x.js" "/build" = true ∧
    ¬ ("build" ∈ jsSplit "rebuild/x.js" '/') ∧
    shouldIncludeFile (excludeFilesList []) "rebuild/x.js" = false :=
  ⟨by decide, by decide, by decide⟩

/-- C10: when no line after the first contains the substring `at `, the
`find` in the runtime-error mapper yields JS `undefined`, which the template
literal renders as the text `undefined`: the entry is the trimmed first line
followed by a location line reading literally `undefined`. -/
theorem summarizeRuntimeError_noFrame (error : String)
    (h : ∀ l ∈ (jsSplit error '\n').drop 1, jsIncludes l "at " = false) :
    summarizeRuntimeError error =
      "- " ++ jsTrim ((jsSplit error '\n').headD "") ++ "\n  undefined" := by
  have hfind : ((jsSplit error '\n').tail).find? (fun line => jsIncludes line "at ") =
      none := by
    rw [List.find?_eq_none]
    intro x hx
    rw [← List.drop_one] at hx
    simp [h x hx]
  have hlit : ("\n  " : String) ++ "undefined" = "\n  undefined" := by decide
  simp [summarizeRuntimeError, hfind, String.append_assoc, hlit]

/-- Witness for C10 at a concrete two-line error with no frame line. -/
theorem summarizeRuntimeError_noFrame_w :
    (∀ l ∈ (jsSplit "Boom\nhello" '\n').drop 1, jsIncludes l "at " = false) ∧
    summarizeRuntimeError "Boom\nhello" =
      "- " ++ jsTrim ((jsSplit "Boom\nhello" '\n').headD "") ++ "\n  undefined" :=
  ⟨by decide, summarizeRuntimeError_noFrame "Boom\nhello" (by decide)⟩

/-- C3: for a relative path other than `output.md`, the renderer returns the
empty string when the trimmed content is empty, and otherwise exactly the
block of header line (path in square brackets), trimmed content, and the
three-dot sentinel line. -/
theorem getFileContentWithStructure_spec (rel content : String) (h : rel ≠ "output.md") :
    (jsTrim content = "" → getFileContentWithStructure rel content = "") ∧
    (jsTrim content ≠ "" → getFileContentWithStructure rel content =
      "[" ++ rel ++ "]\n" ++ jsTrim content ++ "\n...\n") := by
  have hbeq : (rel == "output.md") = false := by
    simp [h]
  constructor
  · intro he
    simp [getFileContentWithStructure, hbeq, he]
  · intro hne
    have hlen : ((jsTrim content).length == 0) = false := by
      simp only [beq_eq_false_iff_ne, ne_eq]
      intro hl
      exact hne (string_eq_empty_of_length_eq_zero hl)
    simp [getFileContentWithStructure, hbeq, hlen]

/-- Witness for C3 at a whitespace-only file and a one-letter file. -/
theorem getFileContentWithStructure_spec_w :
    ("a.txt" : String) ≠ "output.md" ∧
    ((jsTrim "  " = "" → getFileContentWithStructure "a.txt" "  " = "") ∧
      (jsTrim "  " ≠ "" → getFileContentWithStructure "a.txt" "  " =
        "[" ++ "a.txt" ++ "]\n" ++ jsTrim "  " ++ "\n...\n")) ∧
    ("b.txt" : String) ≠ "output.md" ∧
    ((jsTrim " X " = "" → getFileContentWithStructure "b.txt" " X " = "") ∧
      (jsTrim " X " ≠ "" → getFileContentWithStructure "b.txt" " X " =
        "[" ++ "b.txt" ++ "]\n" ++ jsTrim " X " ++ "\n...\n")) :=
  ⟨by decide, getFileContentWithStructure_spec "a.txt" "  " (by decide),
   by decide, getFileContentWithStructure_spec "b.txt" " X " (by decide)⟩

/-- C4: a linter-output parse failure yields the empty diagnostic list, the
ESLint section of the assembled report then renders its sentinel, and the
pipeline completes exactly as it would on an empty lint result (no abort). -/
theorem parseESLintOutput_failure (rel : String → String) (pn : Option String)
    (files : List (String × String)) (rt be : List String) (ts : String) :
    parseESLintOutput rel none = [] ∧
    renderDiag (parseESLintOutput rel none) "No ESLint errors found." =
      "No ESLint errors found." ∧
    runReport pn files rt be none rel ts = runReport pn files rt be (some []) rel ts := by
  refine ⟨rfl, rfl, ?_⟩
  simp [runReport, parseESLintOutput]

/-- C5 counterexample: the orchestrator builds `codeFiles` with `map`, not a
filter, so rendering one all-whitespace file yields the list `[""]` — the
empty-string render IS appended to the list of blocks. -/
theorem codeFilesOf_appends_empty_cex :
    codeFilesOf [("a.txt", " ")] = [""] ∧ "" ∈ codeFilesOf [("a.txt", " ")] :=
  ⟨by decide, by decide⟩

/-- C5 amended: every file, its render empty or not, contributes one element
to the code-files list (`map` preserves length), and a file with
whitespace-only content contributes the empty string as a member of that
list; only the `Set`-deduplication inside the assembler later collapses
repeated empty strings. -/
theorem codeFilesOf_keeps_empty_renders (files : List (String × String)) (p c : String)
    (hmem : (p, c) ∈ files) (hc : jsTrim c = "") :
    "" ∈ codeFilesOf files ∧ (codeFilesOf files).length = files.length := by
  constructor
  · refine List.mem_map.mpr ⟨(p, c), hmem, ?_⟩
    simp [getFileContentWithStructure, hc]
  · simp [codeFilesOf]

/-- Witness for the amended C5 at a one-file list. -/
theorem codeFilesOf_keeps_empty_renders_w :
    (("a.txt", " ") ∈ [(("a.txt" : String), (" " : String))]) ∧ jsTrim " " = "" ∧
    ("" ∈ codeFilesOf [("a.txt", " ")] ∧
      (codeFilesOf [("a.txt", " ")]).length =
        ([(("a.txt" : String), (" " : String))]).length) :=
  ⟨by decide, by decide,
    codeFilesOf_keeps_empty_renders [("a.txt", " ")] "a.txt" " " (by decide) (by decide)⟩

set_option maxRecDepth 8000 in
/-- C8 counterexample: `generateOutput` calls `getProjectName()`, which reads
`package.json` at call time, so two calls with identical six arguments but
different `package.json` contents produce different bytes. -/
theorem generateOutput_depends_on_packageJson :
    generateOutput (some "a") [] [] [] [] [] "" ≠
      generateOutput (some "b") [] [] [] [] [] "" := by
  decide

/-- C8 amended: `generateOutput` is deterministic and free of timestamps and
randomness once the `package.json` project name it reads is fixed alongside
its six arguments: it is a pure function of those seven inputs. -/
theorem generateOutput_deterministic (pn : Option String)
    (cf rt be ee te : List String) (s : String) :
    generateOutput pn cf rt be ee te s = generateOutput pn cf rt be ee te s := rfl

/-- C2: with every diagnostic list nonempty, the assembled report renders the
Runtime, Build and ESLint sections from exactly the first 5 entries of their
input lists and the TypeScript section from the full input list. -/
theorem generateOutput_caps (pn : Option String) (cf rt be ee te : List String) (s : String)
    (hrt : rt.length > 0) (hbe : be.length > 0) (hee : ee.length > 0)
    (hte : te.length > 0) :
    generateOutput pn cf rt be ee te s =
      "# Overview\nThis file provides a summary of the codebase, including code files. Please provide the updated and\nfixed code for each distinct file that requires changes to fix intentionally introduced errors\n(runtime, build, ESLint, and TypeScript), along with concise corrections. Do not include files\nthat do not require any changes.\n\n## Summary\n"
        ++ s
        ++ "\n\n# Project: "
        ++ getProjectName pn
        ++ "\n\n## Code Files\n\n"
        ++ String.intercalate "\n" cf.eraseDups
        ++ "\n\n## Runtime Errors\n\n"
        ++ String.intercalate "\n" (rt.take 5)
        ++ "\n\n## Build Errors\n\n"
        ++ String.intercalate "\n" (be.take 5)
        ++ "\n\n## ESLint Errors\n\n"
        ++ String.intercalate "\n" (ee.take 5)
        ++ "\n\n## TypeScript Errors\n\n"
        ++ String.intercalate "\n" te
        ++ "\n" := by
  simp only [generateOutput, renderDiag_of_pos _ _ hrt, renderDiag_of_pos _ _ hbe,
    renderDiag_of_pos _ _ hee, renderDiagFull_of_pos _ _ hte]

/-- Witness for C2 with 8 ESLint entries and 8 TypeScript entries. -/
theorem generateOutput_caps_w :
    (["r1"] : List String).length > 0 ∧ (["b1"] : List String).length > 0 ∧
    (["e1", "e2", "e3", "e4", "e5", "e6", "e7", "e8"] : List String).length > 0 ∧
    (["t1", "t2", "t3", "t4", "t5", "t6", "t7", "t8"] : List String).length > 0 ∧
    generateOutput none [] ["r1"] ["b1"]
        ["e1", "e2", "e3", "e4", "e5", "e6", "e7", "e8"]
        ["t1", "t2", "t3", "t4", "t5", "t6", "t7", "t8"] "" =
      "# Overview\nThis file provides a summary of the codebase, including code files. Please provide the updated and\nfixed code for each distinct file that requires changes to fix intentionally introduced errors\n(runtime, build, ESLint, and TypeScript), along with concise corrections. Do not include files\nthat do not require any changes.\n\n## Summary\n"
        ++ ""
        ++ "\n\n# Project: "
        ++ getProjectName none
        ++ "\n\n## Code Files\n\n"
        ++ String.intercalate "\n" ([] : List String).eraseDups
        ++ "\n\n## Runtime Errors\n\n"
        ++ String.intercalate "\n" ((["r1"] : List String).take 5)
        ++ "\n\n## Build Errors\n\n"
        ++ String.intercalate "\n" ((["b1"] : List String).take 5)
        ++ "\n\n## ESLint Errors\n\n"
        ++ String.intercalate "\n"
          ((["e1", "e2", "e3", "e4", "e5", "e6", "e7", "e8"] : List String).take 5)
        ++ "\n\n## TypeScript Errors\n\n"
        ++ String.intercalate "\n"
          (["t1", "t2", "t3", "t4", "t5", "t6", "t7", "t8"] : List String)
        ++ "\n" :=
  ⟨by decide, by decide, by decide, by decide,
    generateOutput_caps none [] ["r1"] ["b1"]
      ["e1", "e2", "e3", "e4", "e5", "e6", "e7", "e8"]
      ["t1", "t2", "t3", "t4", "t5", "t6", "t7", "t8"] ""
      (by decide) (by decide) (by decide) (by decide)⟩

/-- C6: the IIFE lacks a try/finally, so when the navigation step throws the
run ends with the browser launched but never closed; the close event is
reached only when every unguarded step succeeds. -/
theorem mainEvents_no_close_on_goto_throw :
    (MainEv.launched ∈ mainEvents .threw .ok .ok .ok .ok .ok .ok) ∧
    (MainEv.closedBrowser ∉ mainEvents .threw .ok .ok .ok .ok .ok .ok) ∧
    (MainEv.closedBrowser ∈ mainEvents .ok .ok .ok .ok .ok .ok .ok) :=
  ⟨by decide, by decide, by decide⟩

example : jsSplit "a\nb" '\n' = ["a", "b"] := by decide
example : jsTrim "  x " = "x" := by decide
example : basename "src/app.ts" = "app.ts" := by decide
example : ruleMatches "src/photo.jpg" "*.jpg" = true := by decide
example : ruleMatches "rebuild/x.js" "/build" = true := by decide
example : shouldIncludeFile ["*.md"] "src/app.ts" = true := by decide
example : getFileContentWithStructure "a.txt" "  " = "" := by decide
example : getFileContentWithStructure "a.txt" " X " = "[a.txt]\nX\n...\n" := by decide
example : summarizeRuntimeError "Boom\nhello" = "- Boom\n  undefined" := by decide
